import Mathlib

/-!
Verification of the evidence-store / thinking-engine core of this repository.

The embedding below translates, statement by statement, the classes
`ExplorationScratchpad`, `ThinkingEngine` (file
`src/core/task/tools/utils/ThinkingEngine.ts`), `IntelligentThinkingSystem`
(file `src/core/task/tools/utils/IntelligentThinkingSystem.ts`) and the
`ReasoningToolHandler` cache renderer.  Conventions:

* JS floating-point arithmetic on confidences is modeled over `ℚ`
  (the source only adds, multiplies, divides and compares small decimal
  literals); `Math.sqrt`, which appears only in the convergence computation,
  is modeled with `Real.sqrt`, so those few definitions live in `ℝ`.
* Wall-clock time (`Date.now() - startTime`) is modeled by an explicit
  function `elapsed : ℕ → ℚ` giving the elapsed milliseconds observed at
  loop iteration `i`.
* A tool result (`ToolResponse`) is modeled by its textual payload, the
  form every claim exercises.
* The JS `Map` used as the cache is modeled by an association list where
  `set` prepends and lookup takes the first hit (observationally the same:
  last write wins).
* `Array.prototype.sort` with comparator `(a, b) => b.timestamp - a.timestamp`
  is a stable descending sort; it is modeled with `List.insertionSort`,
  which is stable.
-/

namespace ClineThink

/-- JS `String.prototype.toLowerCase`, modeled character-wise. -/
def jsToLower (s : String) : String := ⟨s.data.map Char.toLower⟩

/-- JS `String.prototype.includes`: substring containment. -/
def jsIncludes (s pat : String) : Bool := decide (pat.data <:+: s.data)

/-- JS `str.substring(0, n)`. -/
def jsSubstring0 (s : String) (n : ℕ) : String := ⟨s.data.take n⟩

/-- JS `a || b` on an optional string, where `undefined` and `""` are falsy. -/
def jsFalsyOr (a : Option String) (b : String) : String :=
  match a with
  | some s => if s = "" then b else s
  | none => b

/-- JS `Math.round` (round half up), on the exact rationals used here. -/
def jsRound (q : ℚ) : ℤ := ⌊q + 1/2⌋

/-- JS `Number.prototype.toFixed(1)` for the nonnegative values rendered by the
source (one decimal digit, rounded). -/
def toFixed1 (q : ℚ) : String :=
  let n : ℤ := ⌊q * 10 + 1/2⌋
  toString (n / 10) ++ "." ++ toString (n % 10)

/-- JS `Number.prototype.toFixed(2)` for the nonnegative values rendered by the
source (two decimal digits, rounded). -/
def toFixed2 (q : ℚ) : String :=
  let n : ℤ := ⌊q * 100 + 1/2⌋
  toString (n / 100) ++ "." ++ toString (n / 10 % 10) ++ toString (n % 10)

/-- Source `ClineDefaultTool.FILE_READ` (its string value is pinned by
`identifyPatterns`, which compares entries against the literal). -/
def FILE_READ : String := "read_file"

/-- Source `ClineDefaultTool.SEARCH`, pinned by `identifyPatterns`. -/
def SEARCH : String := "search_files"

/-- Source `ClineDefaultTool.LIST_FILES`, pinned by `identifyPatterns`. -/
def LIST_FILES : String := "list_files"

/-- Modelled from the spec: the enum literal for the file-edit (mutating)
action kind lives in `@shared/tools`, outside `src/`; only distinctness from
the exploration kinds matters here. -/
def FILE_EDIT : String := "replace_in_file"

/-- Modelled from the spec: the enum literal for the file-creation (mutating)
action kind lives in `@shared/tools`, outside `src/`. -/
def FILE_NEW : String := "write_to_file"

/-- Modelled from the spec: the enum literal for the designated deep-reasoning
action kind lives in `@shared/tools`, outside `src/`. -/
def REASONING : String := "reasoning"

/-- The scratchpad phase (`"EXPLORE" | "THINK" | "EXECUTE"`). -/
inductive Phase
  | EXPLORE
  | THINK
  | EXECUTE
deriving DecidableEq, Repr

/-- Numeric index of a phase, for stating monotonicity. -/
def phaseIdx : Phase → ℕ
  | .EXPLORE => 0
  | .THINK => 1
  | .EXECUTE => 2

/-- One record of the `ExplorationEntry` interface.  The opaque
`result`/`toolParams` payloads are kept as their textual form. -/
structure ExplorationEntry where
  toolName : String
  query : String
  result : String
  confidence : ℚ
  tags : List String
  filePath : Option String
  timestamp : ℕ
  relevance : ℚ
  toolParams : String
deriving DecidableEq, Repr

/-- Source `ExplorationEntry` minus the timestamp, as accepted by `addEntry`. -/
structure EntryInput where
  toolName : String
  query : String
  result : String
  confidence : ℚ
  tags : List String
  filePath : Option String
  relevance : ℚ
  toolParams : String
deriving DecidableEq, Repr

/-- The `ExplorationSummary` interface. -/
structure ExplorationSummary where
  totalEntries : ℕ
  filesExplored : ℕ
  searchQueries : ℕ
  listOperations : ℕ
  keyFindings : List String
  confidenceScore : ℚ
deriving DecidableEq, Repr

/-- The `ExplorationScratchpad` state: entry log, cache (association list,
newest binding first), phase, and the elapsed-time origin. -/
structure ExplorationScratchpad where
  entries : List ExplorationEntry
  cache : List (String × ExplorationEntry)
  currentPhase : Phase
  explorationStartTime : ℕ
deriving DecidableEq, Repr

/-- A fresh scratchpad (constructor state). -/
def emptyScratchpad : ExplorationScratchpad :=
  { entries := [], cache := [], currentPhase := .EXPLORE, explorationStartTime := 0 }

/-- Source `generateCacheKey`: `lowercase(toolName + ":" + query [+ ":" + filePath])`;
the path component is appended only when `filePath` is truthy (present and
nonempty). -/
def generateCacheKey (toolName query : String) (filePath : Option String) : String :=
  let baseKey := toolName ++ ":" ++ query
  let withPath :=
    match filePath with
    | some p => if p = "" then baseKey else baseKey ++ ":" ++ p
    | none => baseKey
  jsToLower withPath

/-- The descending-timestamp order used by `addEntry`'s sort. -/
def tsDesc (a b : ExplorationEntry) : Prop := b.timestamp ≤ a.timestamp

instance : DecidableRel tsDesc := fun a b => inferInstanceAs (Decidable (b.timestamp ≤ a.timestamp))

/-- The full entry built by `addEntry` from its input and the timestamp. -/
def mkEntry (inp : EntryInput) (now : ℕ) : ExplorationEntry :=
  { toolName := inp.toolName, query := inp.query, result := inp.result,
    confidence := inp.confidence, tags := inp.tags, filePath := inp.filePath,
    timestamp := now, relevance := inp.relevance, toolParams := inp.toolParams }

/-- Source `addEntry`: stamp the entry (`now` models `Date.now()`), push it into the
log, re-sort the log newest-first (stable, as JS `sort`), and write the cache
binding under the normalized key. -/
def addEntry (sp : ExplorationScratchpad) (inp : EntryInput) (now : ℕ) : ExplorationScratchpad :=
  let fullEntry : ExplorationEntry := mkEntry inp now
  { sp with
    entries := List.insertionSort tsDesc (sp.entries ++ [fullEntry])
    cache := (generateCacheKey inp.toolName inp.query inp.filePath, fullEntry) :: sp.cache }

/-- Source `getCachedResult`: cache lookup by normalized key. -/
def getCachedResult (sp : ExplorationScratchpad) (toolName query : String)
    (filePath : Option String) : Option ExplorationEntry :=
  (sp.cache.find? (fun p => p.1 == generateCacheKey toolName query filePath)).map (·.2)

/-- Source `hasExplored`: cache membership by normalized key. -/
def hasExplored (sp : ExplorationScratchpad) (toolName query : String)
    (filePath : Option String) : Bool :=
  (getCachedResult sp toolName query filePath).isSome

/-- Source `generateSummary`: derived, recomputed on demand from the entry log. -/
def generateSummary (sp : ExplorationScratchpad) : ExplorationSummary :=
  let filesExplored :=
    (sp.entries.filter (fun e => e.toolName == FILE_READ || e.toolName == LIST_FILES)).length
  let searchQueries := (sp.entries.filter (fun e => e.toolName == SEARCH)).length
  let listOperations := (sp.entries.filter (fun e => e.toolName == LIST_FILES)).length
  let highConfidenceEntries := sp.entries.filter (fun e => decide ((4/5 : ℚ) < e.confidence))
  let keyFindings := highConfidenceEntries.map (fun e => jsSubstring0 e.result 100 ++ "...")
  let totalConfidence := (sp.entries.map (·.confidence)).sum
  let confidenceScore : ℚ :=
    if 0 < sp.entries.length then totalConfidence / (sp.entries.length : ℚ) else 0
  { totalEntries := sp.entries.length, filesExplored := filesExplored,
    searchQueries := searchQueries, listOperations := listOperations,
    keyFindings := keyFindings, confidenceScore := confidenceScore }

/-- Source `transitionToNextPhase`: `EXPLORE → THINK → EXECUTE`, no-op at `EXECUTE`. -/
def transitionToNextPhase : Phase → Phase
  | .EXPLORE => .THINK
  | .THINK => .EXECUTE
  | .EXECUTE => .EXECUTE

/-- Source `reset`: clear log, cache, phase and the elapsed-time origin. -/
def reset (_sp : ExplorationScratchpad) (now : ℕ) : ExplorationScratchpad :=
  { entries := [], cache := [], currentPhase := .EXPLORE, explorationStartTime := now }

/-- Source `identifyProblemScope` (tough-reasoning iteration 1 diagnostic). -/
def identifyProblemScope (summary : ExplorationSummary) : String :=
  if summary.totalEntries < 2 then "Too early to determine scope"
  else
    "Exploring " ++ toString summary.filesExplored ++ " files with " ++
      toString summary.searchQueries ++ " searches"

/-- Source `evaluateEvidenceQuality` (tough-reasoning iteration 2 diagnostic). -/
def evaluateEvidenceQuality (summary : ExplorationSummary) : String :=
  let quality :=
    if (4/5 : ℚ) < summary.confidenceScore then "High"
    else if (3/5 : ℚ) < summary.confidenceScore then "Medium" else "Low"
  quality ++ " quality (" ++ toString (jsRound (summary.confidenceScore * 100)) ++ "% confidence)"

/-- Source `identifyPatterns` (tough-reasoning iteration 3 diagnostic); compares
entries against the literal tool-name strings. -/
def identifyPatterns (sp : ExplorationScratchpad) : String :=
  let fileReads := (sp.entries.filter (fun e => e.toolName == "read_file")).length
  let searches := (sp.entries.filter (fun e => e.toolName == "search_files")).length
  let lists := (sp.entries.filter (fun e => e.toolName == "list_files")).length
  if searches + lists < fileReads then "Code-focused exploration"
  else if fileReads + lists < searches then "Search-driven investigation"
  else if fileReads + searches < lists then "Structure mapping"
  else "Balanced exploration approach"

/-- Source `performDeepAnalysis` (tough-reasoning iteration ≥ 4 diagnostic);
`elapsedMs` models `getExplorationDuration()` at that point. -/
def performDeepAnalysis (summary : ExplorationSummary) (elapsedMs : ℚ) : String :=
  let efficiency : ℚ := (summary.totalEntries : ℚ) / max (elapsedMs / 1000) 1
  "Analysis efficiency: " ++ toFixed2 efficiency ++ " actions/second"

/-- Source `generateConclusion`: summary rendering used by the detailed conclusion. -/
def generateConclusion (summary : ExplorationSummary) : String :=
  if summary.totalEntries = 0 then "No exploration data available"
  else
    let findings : List String :=
      ["Explored " ++ toString summary.totalEntries ++ " items",
       "Found " ++ toString summary.filesExplored ++ " relevant files",
       "Performed " ++ toString summary.searchQueries ++ " search queries",
       "Overall confidence: " ++ toFixed1 (summary.confidenceScore * 100) ++ "%"]
    let findings :=
      if 0 < summary.keyFindings.length then
        findings ++ ["Key findings: " ++ String.intercalate ", " (summary.keyFindings.take 3)]
      else findings
    String.intercalate ". " findings ++ ". Ready to proceed with execution."

/-- Source `generateDetailedConclusion`, built when the tough-reasoning loop reaches
its confidence target. -/
def generateDetailedConclusion (sp : ExplorationScratchpad) (summary : ExplorationSummary)
    (reasoningSteps : List String) : String :=
  generateConclusion summary ++ "\n\nAnalysis Summary:\n- Evidence Quality: " ++
    evaluateEvidenceQuality summary ++ "\n- Exploration Pattern: " ++ identifyPatterns sp ++
    "\n- Reasoning Iterations: " ++ toString reasoningSteps.length ++
    "\n- Total Data Points: " ++ toString summary.totalEntries

/-- Source `calculateSophisticatedConfidence` for loop iteration `iterations`, with
`elapsedMs` the exploration duration observed then. -/
def calculateSophisticatedConfidence (sp : ExplorationScratchpad) (elapsedMs : ℚ)
    (iterations : ℕ) : ℚ :=
  let summary := generateSummary sp
  let baseConfidence := summary.confidenceScore
  let explorationDepth : ℚ := min 1 ((summary.totalEntries : ℚ) / 10)
  let iterationBonus : ℚ := min (1/5) ((iterations : ℚ) * (1/20))
  let timeBonus : ℚ := min (1/10) (elapsedMs / 60000)
  min 1 (baseConfidence * explorationDepth + iterationBonus + timeBonus)

/-- The record returned by `toughReasoning`. -/
structure ToughReasoningResult where
  conclusion : String
  confidence : ℚ
  iterations : ℕ
  reasoningSteps : List String
deriving DecidableEq, Repr

/-- The themed diagnostic line produced at tough-reasoning iteration `i`. -/
def toughThemedLine (sp : ExplorationScratchpad) (summary : ExplorationSummary)
    (elapsedMs : ℚ) (i : ℕ) : String :=
  if i = 1 then "  - Problem scope: " ++ identifyProblemScope summary
  else if i = 2 then "  - Evidence quality: " ++ evaluateEvidenceQuality summary
  else if i = 3 then "  - Patterns identified: " ++ identifyPatterns sp
  else "  - Deep analysis: " ++ performDeepAnalysis summary elapsedMs

/-- The body of `toughReasoning`'s `for` loop, threading the scratchpad through
each statement exactly as the source does (no statement assigns to it).
`i` is the loop counter, `fuel = maxIterations - i + 1` the remaining trips;
on exhaustion the counter has already been incremented past `maxIterations`,
exactly like the JS `for` variable. -/
def toughGo (elapsed : ℕ → ℚ) (minConfidence : ℚ) :
    ℕ → ℕ → ℚ → String → List String → ExplorationScratchpad →
    ToughReasoningResult × ExplorationScratchpad
  | i, 0, currentConfidence, conclusion, reasoningSteps, sp =>
    ({ conclusion := conclusion, confidence := currentConfidence, iterations := i,
       reasoningSteps := reasoningSteps }, sp)
  | i, fuel + 1, _, conclusion, reasoningSteps, sp =>
    let summary := generateSummary sp
    let reasoningSteps := reasoningSteps ++
      ["Iteration " ++ toString i ++ ": Analyzing " ++ toString summary.totalEntries ++
        " exploration entries"]
    let reasoningSteps := reasoningSteps ++ [toughThemedLine sp summary (elapsed i) i]
    let currentConfidence := calculateSophisticatedConfidence sp (elapsed i) i
    if minConfidence ≤ currentConfidence then
      let conclusion := generateDetailedConclusion sp summary reasoningSteps
      let reasoningSteps := reasoningSteps ++
        ["  - Final conclusion reached with " ++ toString (jsRound (currentConfidence * 100)) ++
          "% confidence"]
      ({ conclusion := conclusion, confidence := currentConfidence, iterations := i,
         reasoningSteps := reasoningSteps }, sp)
    else toughGo elapsed minConfidence (i + 1) fuel currentConfidence conclusion reasoningSteps sp

/-- Source `toughReasoning(maxIterations, minConfidence)`, returning the result
together with the scratchpad state after the call (state-threaded, to record
that no loop statement mutates the store). -/
def toughReasoningS (sp : ExplorationScratchpad) (elapsed : ℕ → ℚ)
    (maxIterations : ℕ) (minConfidence : ℚ) : ToughReasoningResult × ExplorationScratchpad :=
  toughGo elapsed minConfidence 1 maxIterations 0 "Insufficient data for conclusion" [] sp

/-- The result record of `toughReasoning`. -/
def toughReasoning (sp : ExplorationScratchpad) (elapsed : ℕ → ℚ)
    (maxIterations : ℕ) (minConfidence : ℚ) : ToughReasoningResult :=
  (toughReasoningS sp elapsed maxIterations minConfidence).1

/-- The tool parameters consulted by `extractQueryFromTool`; `repr` stands for
`JSON.stringify(params)`, the value the default branch falls back to. -/
structure ToolParams where
  regex : Option String
  query : Option String
  path : Option String
  repr : String
deriving DecidableEq

/-- Source `extractQueryFromTool`: `regex || query || ""` for SEARCH, `path || ""`
for FILE_READ / LIST_FILES, serialized params otherwise. -/
def extractQueryFromTool (toolName : String) (params : ToolParams) : String :=
  if toolName = SEARCH then jsFalsyOr params.regex (jsFalsyOr params.query "")
  else if toolName = FILE_READ then jsFalsyOr params.path ""
  else if toolName = LIST_FILES then jsFalsyOr params.path ""
  else params.repr

/-- Source `evaluateToolRelevance`. -/
def evaluateToolRelevance (toolName : String) (currentPhase : Phase)
    (summary : ExplorationSummary) : ℚ :=
  if currentPhase = .EXPLORE ∧ (toolName = SEARCH ∨ toolName = FILE_READ ∨ toolName = LIST_FILES)
    then 9/10
  else if currentPhase = .EXECUTE ∧ (toolName = FILE_EDIT ∨ toolName = FILE_NEW) then
    if (7/10 : ℚ) < summary.confidenceScore then 9/10 else 1/2
  else if toolName = REASONING then 19/20
  else 3/5

/-- Source `hasSufficientEvidenceForAction`. -/
def hasSufficientEvidenceForAction (toolName : String) (summary : ExplorationSummary) : Bool :=
  if toolName = SEARCH ∨ toolName = FILE_READ ∨ toolName = LIST_FILES then true
  else if toolName = FILE_EDIT ∨ toolName = FILE_NEW then
    decide ((4/5 : ℚ) < summary.confidenceScore ∧ 5 < summary.totalEntries)
  else decide (0 < summary.totalEntries)

/-- Source `buildActionReasoning`. -/
def buildActionReasoning (toolName : String) (relevance : ℚ) (sufficientEvidence : Bool)
    (currentPhase : Phase) : String :=
  let reasoning := "Avaliando execução de " ++ toolName
  let reasoning :=
    if (4/5 : ℚ) < relevance then reasoning ++ " - ferramenta altamente relevante para fase atual"
    else if relevance < (1/2 : ℚ) then
      reasoning ++ " - ferramenta tem baixa relevância, mas pode ser necessária"
    else reasoning
  let reasoning :=
    if sufficientEvidence then reasoning
    else reasoning ++ ". Atenção: evidências podem ser insuficientes para ação decisiva"
  reasoning ++ ". Fase atual: " ++ (match currentPhase with
    | .EXPLORE => "EXPLORE" | .THINK => "THINK" | .EXECUTE => "EXECUTE")

/-- Source `calculateActionConfidence`: average of relevance and store confidence,
scaled by 0.8 on insufficient evidence, clamped to 1. -/
def calculateActionConfidence (toolRelevance : ℚ) (sufficientEvidence : Bool)
    (scratchpadConfidence : ℚ) : ℚ :=
  let confidence := (toolRelevance + scratchpadConfidence) / 2
  let confidence := if sufficientEvidence then confidence else confidence * (4/5)
  min 1 confidence

/-- The return record of `thinkBeforeAction`. -/
structure BeforeActionResult where
  shouldProceed : Bool
  reasoning : String
  confidence : ℚ
deriving DecidableEq

/-- JS `cachedResult?.confidence || 0.8`: a missing entry or a falsy (zero)
confidence yields 0.8. -/
def cachedConfidenceOr08 (cached : Option ExplorationEntry) : ℚ :=
  match cached with
  | some e => if e.confidence = 0 then 4/5 else e.confidence
  | none => 4/5

/-- Source `thinkBeforeAction`: cache short-circuit, then relevance / sufficiency
scoring.  (The appended trace step is log-only and not returned.) -/
def thinkBeforeAction (sp : ExplorationScratchpad) (toolName : String)
    (params : ToolParams) : BeforeActionResult :=
  let currentPhase := sp.currentPhase
  let summary := generateSummary sp
  let query := extractQueryFromTool toolName params
  if hasExplored sp toolName query params.path then
    { shouldProceed := false, reasoning := "Resultado cacheado disponível",
      confidence := cachedConfidenceOr08 (getCachedResult sp toolName query params.path) }
  else
    let toolRelevance := evaluateToolRelevance toolName currentPhase summary
    let sufficientEvidence := hasSufficientEvidenceForAction toolName summary
    let reasoning := buildActionReasoning toolName toolRelevance sufficientEvidence currentPhase
    let confidence :=
      calculateActionConfidence toolRelevance sufficientEvidence summary.confidenceScore
    { shouldProceed := decide ((3/5 : ℚ) < confidence), reasoning := reasoning,
      confidence := confidence }

/-- The decision core produced by `generateFinalDecision`. -/
structure DecisionCore where
  decision : String
  confidence : ℚ
  actionPlan : List String
deriving DecidableEq

/-- Source `generateFinalDecision`: bucket the (freshly recomputed) confidence score. -/
def generateFinalDecision (sp : ExplorationScratchpad) : DecisionCore :=
  let summary := generateSummary sp
  if (9/10 : ℚ) < summary.confidenceScore then
    { decision := "Solução clara identificada com alta confiança",
      confidence := summary.confidenceScore,
      actionPlan := ["Executar mudanças necessárias", "Validar implementação",
        "Testar funcionalidade"] }
  else if (7/10 : ℚ) < summary.confidenceScore then
    { decision := "Solução identificada com confiança moderada",
      confidence := summary.confidenceScore,
      actionPlan := ["Implementar solução proposta", "Verificar se resolve o problema",
        "Preparar ajustes se necessário"] }
  else
    { decision := "Mais análise necessária antes de decisão final",
      confidence := summary.confidenceScore,
      actionPlan := ["Continuar exploração", "Coletar mais evidências", "Reavaliar abordagem"] }

/-- The fields of a `ThinkingStep` trace record that the decision path
populates with distinct data (timestamp and the free-text fields are
presentation-only). -/
structure TraceStep where
  phase : Phase
  action : String
  confidence : ℚ
deriving DecidableEq

/-- The return record of `makeFinalDecision`. -/
structure FinalDecisionResult where
  decision : String
  confidence : ℚ
  actionPlan : List String
  reasoning : String
deriving DecidableEq

/-- Source `makeFinalDecision`: force one `toughReasoning(5, 0.85)` pass when the
store confidence is below 0.8 (threading the store state it returns), then
bucket via `generateFinalDecision`; returns the result together with the trace
steps appended. -/
def makeFinalDecision (sp : ExplorationScratchpad) (elapsed : ℕ → ℚ) :
    FinalDecisionResult × List TraceStep :=
  let summary := generateSummary sp
  let forced :=
    if summary.confidenceScore < (4/5 : ℚ) then
      let tr := toughReasoningS sp elapsed 5 (17/20)
      (some (⟨.THINK, "tough_reasoning", tr.1.confidence⟩ : TraceStep), tr.2)
    else (none, sp)
  let core := generateFinalDecision forced.2
  let reasoning := "Com base em " ++ toString summary.totalEntries ++
    " pontos de evidência e confiança de " ++ toFixed1 (summary.confidenceScore * 100) ++
    "%, decidi: " ++ core.decision
  ({ decision := core.decision, confidence := core.confidence,
     actionPlan := core.actionPlan, reasoning := reasoning },
   (forced.1.toList) ++ [⟨.EXECUTE, "final_decision", core.confidence⟩])

/-- Source `ReasoningToolHandler.truncateResult`: cut the payload at 500 characters,
appending an ellipsis. -/
def truncateResult (s : String) : String :=
  if 500 < s.length then jsSubstring0 s 500 ++ "..." else s

/-- The data rendered by `checkCacheStatus` (markdown framing elided: hit flag,
the cached entry's metadata, and the truncated payload preview). -/
structure CacheStatusRender where
  hit : Bool
  confidence : Option ℚ
  timestamp : Option ℕ
  tags : Option (List String)
  relevance : Option ℚ
  preview : Option String
deriving DecidableEq

/-- Source `checkCacheStatus` (the `check_cache` reasoning function). -/
def checkCacheStatus (sp : ExplorationScratchpad) (toolName query : String)
    (filePath : Option String) : CacheStatusRender :=
  let cachedResult := getCachedResult sp toolName query filePath
  match cachedResult with
  | some e =>
    { hit := hasExplored sp toolName query filePath, confidence := some e.confidence,
      timestamp := some e.timestamp, tags := some e.tags, relevance := some e.relevance,
      preview := some (truncateResult e.result) }
  | none =>
    { hit := hasExplored sp toolName query filePath, confidence := none, timestamp := none,
      tags := none, relevance := none, preview := none }

/-- Thought phases of the iteration controller (a superset of the store's
phases, adding `REFLECT`). -/
inductive ThoughtPhase
  | EXPLORE
  | THINK
  | EXECUTE
  | REFLECT
deriving DecidableEq, Repr

/-- An `IntelligentThought` trace record, kept as the fields the loop logic
reads back (id/timestamp/free text/action payloads are presentation-only;
`confidence` feeds the consistency computation). -/
structure IntelligentThought where
  phase : ThoughtPhase
  confidence : ℚ
deriving DecidableEq, Repr

/-- The confidences of a thought chain (the field consistency reads). -/
def thoughtConfidences (thoughts : List IntelligentThought) : List ℚ :=
  thoughts.map (·.confidence)

/-- Source `calculateThoughtConsistency`: 0.5 with fewer than two thoughts, otherwise
`max(0, 1 - sqrt(variance of the thought confidences))`. -/
noncomputable def calculateThoughtConsistency (confidences : List ℚ) : ℝ :=
  if confidences.length < 2 then 0.5
  else
    let avgConfidence : ℚ := confidences.sum / (confidences.length : ℚ)
    let varnc : ℚ :=
      (confidences.map (fun conf => (conf - avgConfidence) ^ 2)).sum / (confidences.length : ℚ)
    max 0 (1 - Real.sqrt (varnc : ℝ))

/-- Source `updateConvergenceLevel`'s computed value:
`min(1, dataConfidence + min(0.3, iterations*0.05) + consistency*0.2)`. -/
noncomputable def updateConvergenceLevel (dataConfidence : ℚ) (iterations : ℕ)
    (confidences : List ℚ) : ℝ :=
  let thoughtConsistency := calculateThoughtConsistency confidences
  let iterationBonus : ℝ := min 0.3 ((iterations : ℝ) * 0.05)
  let consistencyBonus : ℝ := thoughtConsistency * 0.2
  min 1 ((dataConfidence : ℝ) + iterationBonus + consistencyBonus)

/-- The flags returned by `analyzeCurrentSituation`. -/
structure SituationAnalysis where
  needsMoreExploration : Bool
  needsDeepReasoning : Bool
  canMakeDecision : Bool
  explorationStrategy : List String
  reasoningFocus : String
deriving DecidableEq, Repr

/-- Source `analyzeCurrentSituation`: the four-way classification of the current
situation (first match of the `if/else` chain wins). -/
def analyzeCurrentSituation (summary : ExplorationSummary) (currentPhase : Phase)
    (iteration : ℕ) : SituationAnalysis :=
  if summary.totalEntries < 3 ∧ currentPhase = .EXPLORE then
    { needsMoreExploration := true, needsDeepReasoning := false, canMakeDecision := false,
      explorationStrategy := ["auto_explore", "read_key_files", "search_patterns"],
      reasoningFocus := "" }
  else if summary.confidenceScore < (7/10 : ℚ) ∧ currentPhase = .THINK then
    { needsMoreExploration := false, needsDeepReasoning := true, canMakeDecision := false,
      explorationStrategy := [], reasoningFocus := "evidence_evaluation" }
  else if (4/5 : ℚ) ≤ summary.confidenceScore ∨ 5 ≤ iteration then
    { needsMoreExploration := false, needsDeepReasoning := false, canMakeDecision := true,
      explorationStrategy := [], reasoningFocus := "" }
  else
    { needsMoreExploration := true, needsDeepReasoning := false, canMakeDecision := false,
      explorationStrategy := ["targeted_search", "deep_file_analysis"], reasoningFocus := "" }

/-- Thoughts appended by `performIntelligentExploration` for a strategy. -/
def explorationThoughts (strategy : List String) : List IntelligentThought :=
  ⟨.EXPLORE, 7/10⟩ :: strategy.map (fun _ => (⟨.EXPLORE, 4/5⟩ : IntelligentThought)) ++
    [⟨.REFLECT, 3/4⟩]

/-- Thoughts appended by `performDeepReasoning`, which invokes
`toughReasoning(3, 0.8)` on the store. -/
def deepReasoningThoughts (sp : ExplorationScratchpad) (elapsed : ℕ → ℚ) :
    List IntelligentThought :=
  [⟨.THINK, 3/5⟩, ⟨.THINK, (toughReasoning sp elapsed 3 (4/5)).confidence⟩]

/-- Source `analyzeActionResult`'s confidence classification of an external result. -/
def analyzeActionResultConfidence (resultStr : String) : ℚ :=
  if jsIncludes resultStr "error" || jsIncludes resultStr "not found" then 2/5
  else if 200 < resultStr.length then 9/10
  else 3/5

/-- The reflect step (loop step 5): a REFLECT thought for a pending external
result, which is then cleared. -/
def reflectThoughts (thoughts : List IntelligentThought) (lastActionResult : Option String) :
    List IntelligentThought :=
  match lastActionResult with
  | some r => thoughts ++ [⟨.REFLECT, analyzeActionResultConfidence r⟩]
  | none => thoughts

/-- Which branch a loop iteration ended in (instrumentation of the source's
control flow; `forcedDecision` marks the post-loop forced decision). -/
inductive BranchTaken
  | exploreMore
  | deepReason
  | decideNow
  | convergeDecide
  | passThrough
  | forcedDecision
deriving DecidableEq, Repr

/-- The `IntelligentThinkingSystem` mutable state the loop touches:
thought chain, iteration counter, convergence level, pending external result,
stop flag, plus the produced decision and a branch trace. -/
structure IntelligentState where
  thoughts : List IntelligentThought
  currentIteration : ℕ
  convergenceLevel : ℝ
  lastActionResult : Option String
  thinkingActive : Bool
  decision : Option FinalDecisionResult
  branchTrace : List BranchTaken

/-- Source `initializeIntelligentThinking`: reset the counter, activate the loop, and
seed two THINK thoughts (task restatement at 0.5, then a knowledge assessment
at the store's confidence score). -/
noncomputable def initializeIntelligentThinking (sp : ExplorationScratchpad) :
    IntelligentState :=
  { thoughts := [⟨.THINK, 1/2⟩, ⟨.THINK, (generateSummary sp).confidenceScore⟩],
    currentIteration := 0, convergenceLevel := 0, lastActionResult := none,
    thinkingActive := true, decision := none, branchTrace := [] }

/-- Thoughts appended by `makeIntelligentDecision` around the engine's
`makeFinalDecision` call. -/
def decisionThoughts (sp : ExplorationScratchpad) (fd : FinalDecisionResult) :
    List IntelligentThought :=
  [⟨.EXECUTE, (generateSummary sp).confidenceScore⟩, ⟨.EXECUTE, fd.confidence⟩]

/-- One trip of `executeThinkingLoop`'s `while` body (the caller has already
checked `currentIteration < maxIterations && isThinkingActive`).  The store is
never written inside the loop, so the summary and phase are read from the
fixed `sp`. -/
noncomputable def loopStep (sp : ExplorationScratchpad) (elapsed : ℕ → ℚ)
    (s : IntelligentState) : IntelligentState :=
  let iteration := s.currentIteration + 1
  let summary := generateSummary sp
  let analysis := analyzeCurrentSituation summary sp.currentPhase iteration
  let thoughts := s.thoughts ++ [⟨.THINK, summary.confidenceScore⟩]
  if analysis.needsMoreExploration then
    { s with currentIteration := iteration,
             thoughts := thoughts ++ explorationThoughts analysis.explorationStrategy,
             branchTrace := s.branchTrace ++ [.exploreMore] }
  else if analysis.needsDeepReasoning then
    { s with currentIteration := iteration,
             thoughts := thoughts ++ deepReasoningThoughts sp elapsed,
             branchTrace := s.branchTrace ++ [.deepReason] }
  else if analysis.canMakeDecision then
    let fd := (makeFinalDecision sp elapsed).1
    { s with currentIteration := iteration,
             thoughts := thoughts ++ decisionThoughts sp fd,
             thinkingActive := false, decision := some fd,
             branchTrace := s.branchTrace ++ [.decideNow] }
  else
    let thoughts := reflectThoughts thoughts s.lastActionResult
    let convergence :=
      updateConvergenceLevel summary.confidenceScore iteration (thoughtConfidences thoughts)
    if (0.85 : ℝ) ≤ convergence then
      let fd := (makeFinalDecision sp elapsed).1
      { s with currentIteration := iteration,
               thoughts := thoughts ++ decisionThoughts sp fd,
               convergenceLevel := convergence, lastActionResult := none,
               thinkingActive := false, decision := some fd,
               branchTrace := s.branchTrace ++ [.convergeDecide] }
    else
      { s with currentIteration := iteration, thoughts := thoughts,
               convergenceLevel := convergence, lastActionResult := none,
               branchTrace := s.branchTrace ++ [.passThrough] }

/-- The `while` loop of `executeThinkingLoop`; each trip increments the
iteration counter, so `maxIterations` trips of fuel suffice. -/
noncomputable def loopRun (sp : ExplorationScratchpad) (elapsed : ℕ → ℚ)
    (maxIterations : ℕ) : ℕ → IntelligentState → IntelligentState
  | 0, s => s
  | fuel + 1, s =>
    if s.currentIteration < maxIterations ∧ s.thinkingActive then
      loopRun sp elapsed maxIterations fuel (loopStep sp elapsed s)
    else s

/-- Source `executeThinkingLoop(maxIterations)`: run the loop; if it stopped without
an in-loop decision, force one `makeIntelligentDecision` pass. -/
noncomputable def executeThinkingLoop (sp : ExplorationScratchpad) (elapsed : ℕ → ℚ)
    (maxIterations : ℕ) (s₀ : IntelligentState) : IntelligentState × FinalDecisionResult :=
  let s := loopRun sp elapsed maxIterations maxIterations s₀
  match s.decision with
  | some fd => (s, fd)
  | none =>
    let fd := (makeFinalDecision sp elapsed).1
    ({ s with thoughts := s.thoughts ++ decisionThoughts sp fd,
              thinkingActive := false, decision := some fd,
              branchTrace := s.branchTrace ++ [.forcedDecision] }, fd)

/-- Build a scratchpad from a sequence of `addEntry` calls, stamping entries
with the strictly increasing clock `t, t+1, …`. -/
def buildAux : ExplorationScratchpad → List EntryInput → ℕ → ExplorationScratchpad
  | sp, [], _ => sp
  | sp, r :: rs, t => buildAux (addEntry sp r t) rs (t + 1)

/-- A scratchpad obtained from a fresh store by a sequence of `addEntry` calls. -/
def buildScratchpad (reqs : List EntryInput) : ExplorationScratchpad :=
  buildAux emptyScratchpad reqs 1

/-- A time model in which no wall-clock time passes. -/
def zeroElapsed : ℕ → ℚ := fun _ => 0

/-- A convenient concrete `addEntry` argument. -/
def sampleInput (tool q res : String) (conf : ℚ) (fp : Option String) : EntryInput :=
  { toolName := tool, query := q, result := res, confidence := conf, tags := [tool],
    filePath := fp, relevance := 1, toolParams := q }

/-- A store holding one entry whose confidence is 0. -/
def spConfZero : ExplorationScratchpad :=
  buildScratchpad [sampleInput SEARCH "q" "res" 0 none]

/-- The entry stored in `spConfZero`. -/
def entryConfZero : ExplorationEntry :=
  { toolName := SEARCH, query := "q", result := "res", confidence := 0, tags := [SEARCH],
    filePath := none, timestamp := 1, relevance := 1, toolParams := "q" }

/-- SEARCH parameters whose derived query is `"q"`. -/
def paramsQ : ToolParams := { regex := some "q", query := none, path := none, repr := "params" }

/-- A store holding one entry with confidence 0.9. -/
def spC2 : ExplorationScratchpad :=
  buildScratchpad [sampleInput SEARCH "qq" "res" (9/10) none]

/-- The entry stored in `spC2`. -/
def entryC2 : ExplorationEntry :=
  { toolName := SEARCH, query := "qq", result := "res", confidence := 9/10, tags := [SEARCH],
    filePath := none, timestamp := 1, relevance := 1, toolParams := "qq" }

/-- SEARCH parameters whose derived query is `"qq"`. -/
def paramsQQ : ToolParams := { regex := some "qq", query := none, path := none, repr := "params" }

/-- The claimed cache-canonicalization example input:
`addEntry({action:"SEARCH", query:"Auth", path:"X"})`. -/
def sampleAuthInput : EntryInput := sampleInput "SEARCH" "Auth" "res" (1/2) (some "X")

/-- A store whose two entries both have confidence 0.95. -/
def spHigh95 : ExplorationScratchpad :=
  buildScratchpad [sampleInput FILE_READ "a" "res" (19/20) none,
    sampleInput SEARCH "b" "res" (19/20) none]

/-- A store with a single high-confidence entry, still in EXPLORE phase. -/
def spOneHigh : ExplorationScratchpad :=
  buildScratchpad [sampleInput FILE_READ "a" "res" (9/10) none]

/-- A store with three high-confidence entries. -/
def spThreeHigh : ExplorationScratchpad :=
  buildScratchpad [sampleInput FILE_READ "a" "res" (9/10) none,
    sampleInput FILE_READ "b" "res" (9/10) none,
    sampleInput SEARCH "c" "res" (9/10) none]

/-- A 101-character payload. -/
def longResult : String := ⟨List.replicate 101 'a'⟩

/-- A store caching an entry whose payload has 101 characters. -/
def spLong : ExplorationScratchpad :=
  buildScratchpad [sampleInput FILE_READ "f" longResult (1/2) none]

/-- The entry stored in `spLong`. -/
def entryLong : ExplorationEntry :=
  { toolName := FILE_READ, query := "f", result := longResult, confidence := 1/2,
    tags := [FILE_READ], filePath := none, timestamp := 1, relevance := 1, toolParams := "f" }

/-! ## Helper lemmas -/

theorem jsToLower_append (a b : String) : jsToLower (a ++ b) = jsToLower a ++ jsToLower b := by
  apply String.ext
  simp [jsToLower, String.data_append]

theorem jsToLower_eq_empty_iff (s : String) : jsToLower s = "" ↔ s = "" := by
  constructor
  · intro h
    apply String.ext
    have hd := congrArg String.data h
    simp [jsToLower] at hd
    simp [hd]
  · intro h
    subst h
    rfl

theorem generateCacheKey_congr (t t' q q' : String) (p p' : Option String)
    (ht : jsToLower t' = jsToLower t) (hq : jsToLower q' = jsToLower q)
    (hp : p'.map jsToLower = p.map jsToLower) :
    generateCacheKey t' q' p' = generateCacheKey t q p := by
  have hbase : jsToLower (t' ++ ":" ++ q') = jsToLower (t ++ ":" ++ q) := by
    simp only [jsToLower_append]
    rw [ht, hq]
  cases p with
  | none =>
    cases p' with
    | none => exact hbase
    | some s' => simp at hp
  | some s =>
    cases p' with
    | none => simp at hp
    | some s' =>
      simp only [Option.map_some', Option.some.injEq] at hp
      have hemp : s' = "" ↔ s = "" := by
        rw [← jsToLower_eq_empty_iff s', ← jsToLower_eq_empty_iff s, hp]
      by_cases hs : s = ""
      · have hs' : s' = "" := hemp.mpr hs
        show jsToLower (if s' = "" then t' ++ ":" ++ q' else t' ++ ":" ++ q' ++ ":" ++ s') =
          jsToLower (if s = "" then t ++ ":" ++ q else t ++ ":" ++ q ++ ":" ++ s)
        rw [if_pos hs', if_pos hs]
        exact hbase
      · have hs' : ¬s' = "" := fun h => hs (hemp.mp h)
        show jsToLower (if s' = "" then t' ++ ":" ++ q' else t' ++ ":" ++ q' ++ ":" ++ s') =
          jsToLower (if s = "" then t ++ ":" ++ q else t ++ ":" ++ q ++ ":" ++ s)
        rw [if_neg hs', if_neg hs]
        simp only [jsToLower_append]
        simp only [jsToLower_append] at hbase
        rw [hbase, hp]

theorem addEntry_entries_length (sp : ExplorationScratchpad) (inp : EntryInput) (now : ℕ) :
    (addEntry sp inp now).entries.length = sp.entries.length + 1 := by
  have h := (List.perm_insertionSort tsDesc (sp.entries ++ [mkEntry inp now])).length_eq
  simp [addEntry] at h ⊢

theorem addEntry_entries_conf_sum (sp : ExplorationScratchpad) (inp : EntryInput) (now : ℕ) :
    ((addEntry sp inp now).entries.map (·.confidence)).sum =
      (sp.entries.map (·.confidence)).sum + inp.confidence := by
  have h := ((List.perm_insertionSort tsDesc (sp.entries ++ [mkEntry inp now])).map
    (fun e : ExplorationEntry => e.confidence)).sum_eq
  simpa [addEntry, mkEntry] using h

theorem buildAux_entries_length (reqs : List EntryInput) :
    ∀ (sp : ExplorationScratchpad) (t : ℕ),
      (buildAux sp reqs t).entries.length = sp.entries.length + reqs.length := by
  induction reqs with
  | nil => intro sp t; simp [buildAux]
  | cons r rs ih =>
    intro sp t
    rw [buildAux, ih, addEntry_entries_length]
    simp
    omega

theorem buildAux_conf_sum (reqs : List EntryInput) :
    ∀ (sp : ExplorationScratchpad) (t : ℕ),
      ((buildAux sp reqs t).entries.map (·.confidence)).sum =
        (sp.entries.map (·.confidence)).sum + (reqs.map (·.confidence)).sum := by
  induction reqs with
  | nil => intro sp t; simp [buildAux]
  | cons r rs ih =>
    intro sp t
    rw [buildAux, ih, addEntry_entries_conf_sum]
    simp
    ring

theorem confidenceScore_nonneg (sp : ExplorationScratchpad)
    (hconf : ∀ e ∈ sp.entries, 0 ≤ e.confidence) :
    0 ≤ (generateSummary sp).confidenceScore := by
  simp only [generateSummary]
  split
  · apply div_nonneg
    · apply List.sum_nonneg
      intro x hx
      obtain ⟨e, he, rfl⟩ := List.mem_map.mp hx
      exact hconf e he
    · positivity
  · exact le_refl 0

/-! ## Claim theorems -/

/-- C4: every `transitionToNextPhase()` walk is non-decreasing, moves at most
one step per call through EXPLORE < THINK < EXECUTE, never decrements the
phase, and EXECUTE is absorbing. -/
theorem transitionToNextPhase_monotone_absorbing :
    ∀ (p : Phase) (n : ℕ),
      phaseIdx (transitionToNextPhase^[n] p) ≤ phaseIdx (transitionToNextPhase^[n + 1] p) ∧
      phaseIdx (transitionToNextPhase^[n + 1] p) ≤ phaseIdx (transitionToNextPhase^[n] p) + 1 ∧
      transitionToNextPhase Phase.EXECUTE = Phase.EXECUTE ∧
      transitionToNextPhase^[n] Phase.EXECUTE = Phase.EXECUTE := by
  have hstep : ∀ q : Phase, phaseIdx q ≤ phaseIdx (transitionToNextPhase q) ∧
      phaseIdx (transitionToNextPhase q) ≤ phaseIdx q + 1 := by
    intro q
    cases q <;> simp [transitionToNextPhase, phaseIdx]
  intro p n
  refine ⟨?_, ?_, rfl, ?_⟩
  · rw [Function.iterate_succ_apply']
    exact (hstep _).1
  · rw [Function.iterate_succ_apply']
    exact (hstep _).2
  · induction n with
    | zero => rfl
    | succ k ih =>
      rw [Function.iterate_succ_apply', ih]
      rfl

/-- C5: cache lookup is case-insensitive via key normalization.  After any
`addEntry`, `hasExplored` answers true for arguments differing from the
stored ones only in letter case, because the key is
`lowercase(actionKind + ":" + query [+ ":" + filePath])`. -/
theorem cache_key_case_insensitive
    (sp : ExplorationScratchpad) (inp : EntryInput) (now : ℕ)
    (toolName query : String) (filePath : Option String)
    (ht : jsToLower toolName = jsToLower inp.toolName)
    (hq : jsToLower query = jsToLower inp.query)
    (hp : filePath.map jsToLower = inp.filePath.map jsToLower) :
    hasExplored (addEntry sp inp now) toolName query filePath = true := by
  have hkey : generateCacheKey toolName query filePath =
      generateCacheKey inp.toolName inp.query inp.filePath :=
    generateCacheKey_congr inp.toolName toolName inp.query query inp.filePath filePath ht hq hp
  simp [hasExplored, getCachedResult, addEntry, List.find?, hkey]

/-- C5 witness: `addEntry({action:"SEARCH", query:"Auth", path:"X"})` makes
`hasExplored("SEARCH","auth","x")` true. -/
theorem cache_key_case_insensitive_witness :
    jsToLower "SEARCH" = jsToLower "SEARCH" ∧
    jsToLower "auth" = jsToLower "Auth" ∧
    (some "x").map jsToLower = (some "X").map jsToLower ∧
    hasExplored (addEntry emptyScratchpad sampleAuthInput 1) "SEARCH" "auth" (some "x") = true := by
  refine ⟨rfl, by decide, by decide, ?_⟩
  exact cache_key_case_insensitive emptyScratchpad sampleAuthInput 1 "SEARCH" "auth" (some "x")
    rfl (by decide) (by decide)

/-- C3 (amended): for every sequence of `addEntry` calls,
`generateSummary().confidenceScore` is the arithmetic mean of the stored
confidences; an empty store yields `totalEntries = 0`, `confidenceScore = 0`
and empty `keyFindings`; on a nonempty store the score is 0 exactly when the
confidences sum to 0 (not only when the log is empty). -/
theorem generateSummary_mean (reqs : List EntryInput) :
    (generateSummary (buildScratchpad reqs)).totalEntries = reqs.length ∧
    (generateSummary (buildScratchpad reqs)).confidenceScore =
      (if reqs.length = 0 then 0 else (reqs.map (·.confidence)).sum / (reqs.length : ℚ)) ∧
    (reqs = [] →
      (generateSummary (buildScratchpad reqs)).totalEntries = 0 ∧
      (generateSummary (buildScratchpad reqs)).confidenceScore = 0 ∧
      (generateSummary (buildScratchpad reqs)).keyFindings = []) ∧
    (reqs ≠ [] →
      ((generateSummary (buildScratchpad reqs)).confidenceScore = 0 ↔
        (reqs.map (·.confidence)).sum = 0)) := by
  have hlen : (buildScratchpad reqs).entries.length = reqs.length := by
    have h := buildAux_entries_length reqs emptyScratchpad 1
    simpa [buildScratchpad, emptyScratchpad] using h
  have hsum : ((buildScratchpad reqs).entries.map (·.confidence)).sum =
      (reqs.map (·.confidence)).sum := by
    have h := buildAux_conf_sum reqs emptyScratchpad 1
    simpa [buildScratchpad, emptyScratchpad] using h
  have htot : (generateSummary (buildScratchpad reqs)).totalEntries = reqs.length := by
    simpa [generateSummary] using hlen
  have hscore : (generateSummary (buildScratchpad reqs)).confidenceScore =
      (if reqs.length = 0 then 0 else (reqs.map (·.confidence)).sum / (reqs.length : ℚ)) := by
    simp only [generateSummary, hsum, hlen]
    rcases Nat.eq_zero_or_pos reqs.length with h0 | h0
    · simp [h0]
    · rw [if_pos h0, if_neg (Nat.pos_iff_ne_zero.mp h0)]
  refine ⟨htot, hscore, ?_, ?_⟩
  · rintro rfl
    exact ⟨rfl, rfl, rfl⟩
  · intro hne
    have hlen0 : reqs.length ≠ 0 := fun h => hne (List.length_eq_zero.mp h)
    rw [hscore, if_neg hlen0]
    constructor
    · intro h
      rcases div_eq_zero_iff.mp h with h | h
      · exact h
      · exact absurd (Nat.cast_eq_zero.mp h) hlen0
    · intro h
      rw [h, zero_div]

/-- C3 witness: a one-entry store with confidence 1 has totalEntries 1 and
mean confidence 1 (nonzero, matching the nonzero sum). -/
theorem generateSummary_mean_witness :
    ([sampleInput SEARCH "w" "res" 1 none] ≠ ([] : List EntryInput)) ∧
    (generateSummary (buildScratchpad [sampleInput SEARCH "w" "res" 1 none])).totalEntries = 1 ∧
    ((generateSummary (buildScratchpad [sampleInput SEARCH "w" "res" 1 none])).confidenceScore = 0 ↔
      (([sampleInput SEARCH "w" "res" 1 none].map (·.confidence)).sum : ℚ) = 0) := by
  have h := generateSummary_mean [sampleInput SEARCH "w" "res" 1 none]
  exact ⟨by decide, h.1, h.2.2.2 (by decide)⟩

/-- C3 counterexample: one `addEntry` with confidence 0 gives a nonempty log
whose `confidenceScore` is 0, refuting "equals 0 exactly when the entry log is
empty". -/
theorem generateSummary_zero_score_nonempty_counterexample :
    (generateSummary spConfZero).confidenceScore = 0 ∧
    (generateSummary spConfZero).totalEntries = 1 := by
  constructor <;>
    simp [spConfZero, buildScratchpad, buildAux, addEntry, mkEntry, emptyScratchpad,
      sampleInput, generateSummary, List.insertionSort, List.orderedInsert]

/-- C2 (amended): when the derived cache key hits, `thinkBeforeAction` returns
`shouldProceed = false` with the cached entry's confidence — except that a
stored confidence of 0 (falsy in JS) is replaced by 0.8. -/
theorem thinkBeforeAction_cache_hit
    (sp : ExplorationScratchpad) (toolName : String) (params : ToolParams)
    (e : ExplorationEntry)
    (h : getCachedResult sp toolName (extractQueryFromTool toolName params) params.path = some e) :
    (thinkBeforeAction sp toolName params).shouldProceed = false ∧
    (thinkBeforeAction sp toolName params).reasoning = "Resultado cacheado disponível" ∧
    (thinkBeforeAction sp toolName params).confidence =
      (if e.confidence = 0 then 4/5 else e.confidence) := by
  have hhit : hasExplored sp toolName (extractQueryFromTool toolName params) params.path = true := by
    simp [hasExplored, h]
  simp [thinkBeforeAction, hhit, h, cachedConfidenceOr08]

/-- C2 witness: a cache hit on a stored entry with confidence 0.9 short-circuits
with that confidence. -/
theorem thinkBeforeAction_cache_hit_witness :
    getCachedResult spC2 SEARCH (extractQueryFromTool SEARCH paramsQQ) paramsQQ.path =
      some entryC2 ∧
    (thinkBeforeAction spC2 SEARCH paramsQQ).shouldProceed = false ∧
    (thinkBeforeAction spC2 SEARCH paramsQQ).confidence =
      (if entryC2.confidence = 0 then 4/5 else entryC2.confidence) := by
  have h : getCachedResult spC2 SEARCH (extractQueryFromTool SEARCH paramsQQ) paramsQQ.path =
      some entryC2 := by
    simp [spC2, buildScratchpad, buildAux, addEntry, mkEntry, emptyScratchpad, sampleInput,
      getCachedResult, extractQueryFromTool, paramsQQ, jsFalsyOr, List.find?, entryC2]
  have hc := thinkBeforeAction_cache_hit spC2 SEARCH paramsQQ entryC2 h
  exact ⟨h, hc.1, hc.2.2⟩

/-- C2 counterexample: the stored entry has confidence 0, yet the cache-hit
branch returns confidence 0.8 (`cachedResult?.confidence || 0.8`), not the
stored entry's confidence. -/
theorem thinkBeforeAction_zero_confidence_counterexample :
    ((getCachedResult spConfZero SEARCH (extractQueryFromTool SEARCH paramsQ)
        paramsQ.path).map (·.confidence)) = some 0 ∧
    (thinkBeforeAction spConfZero SEARCH paramsQ).shouldProceed = false ∧
    (thinkBeforeAction spConfZero SEARCH paramsQ).confidence = 4/5 ∧
    ((4 : ℚ)/5 ≠ 0) := by
  have h : getCachedResult spConfZero SEARCH (extractQueryFromTool SEARCH paramsQ)
      paramsQ.path = some entryConfZero := by
    simp [spConfZero, buildScratchpad, buildAux, addEntry, mkEntry, emptyScratchpad, sampleInput,
      getCachedResult, extractQueryFromTool, paramsQ, jsFalsyOr, List.find?, entryConfZero]
  have hhit : hasExplored spConfZero SEARCH (extractQueryFromTool SEARCH paramsQ)
      paramsQ.path = true := by
    simp [hasExplored, h]
  refine ⟨?_, ?_, ?_, by norm_num⟩
  · rw [h]
    simp [entryConfZero]
  · simp [thinkBeforeAction, hhit]
  · simp [thinkBeforeAction, hhit, h, cachedConfidenceOr08, entryConfZero]

theorem toughGo_snd (elapsed : ℕ → ℚ) (minC : ℚ) :
    ∀ (fuel i : ℕ) (conf : ℚ) (concl : String) (steps : List String)
      (sp : ExplorationScratchpad),
      (toughGo elapsed minC i fuel conf concl steps sp).2 = sp := by
  intro fuel
  induction fuel with
  | zero => intro i conf concl steps sp; rfl
  | succ n ih =>
    intro i conf concl steps sp
    simp only [toughGo]
    split
    · rfl
    · exact ih _ _ _ _ _

theorem toughGo_exhaust (elapsed : ℕ → ℚ) (minC : ℚ) :
    ∀ (fuel i : ℕ) (conf : ℚ) (concl : String) (steps : List String)
      (sp : ExplorationScratchpad),
      (∀ j, i ≤ j → j < i + fuel → calculateSophisticatedConfidence sp (elapsed j) j < minC) →
      (toughGo elapsed minC i fuel conf concl steps sp).1.iterations = i + fuel ∧
      (toughGo elapsed minC i fuel conf concl steps sp).1.confidence =
        (if fuel = 0 then conf
          else calculateSophisticatedConfidence sp (elapsed (i + fuel - 1)) (i + fuel - 1)) := by
  intro fuel
  induction fuel with
  | zero => intro i conf concl steps sp _; exact ⟨rfl, rfl⟩
  | succ n ih =>
    intro i conf concl steps sp h
    have hi : calculateSophisticatedConfidence sp (elapsed i) i < minC :=
      h i (le_refl i) (by omega)
    simp only [toughGo]
    rw [if_neg (not_le.mpr hi)]
    have hrec := ih (i + 1) (calculateSophisticatedConfidence sp (elapsed i) i) concl
      ((steps ++ ["Iteration " ++ toString i ++ ": Analyzing " ++
        toString (generateSummary sp).totalEntries ++ " exploration entries"]) ++
        [toughThemedLine sp (generateSummary sp) (elapsed i) i]) sp
      (by intro j hj1 hj2; exact h j (by omega) (by omega))
    refine ⟨by rw [hrec.1]; omega, ?_⟩
    rw [hrec.2]
    rcases Nat.eq_zero_or_pos n with hn | hn
    · subst hn
      simp
    · rw [if_neg (by omega), if_neg (by omega)]
      have harith : i + 1 + n - 1 = i + (n + 1) - 1 := by omega
      rw [harith]

theorem toughGo_hit (elapsed : ℕ → ℚ) (minC : ℚ) :
    ∀ (fuel i : ℕ) (conf : ℚ) (concl : String) (steps : List String)
      (sp : ExplorationScratchpad) (j : ℕ),
      i ≤ j → j < i + fuel →
      minC ≤ calculateSophisticatedConfidence sp (elapsed j) j →
      (∀ k, i ≤ k → k < j → calculateSophisticatedConfidence sp (elapsed k) k < minC) →
      (toughGo elapsed minC i fuel conf concl steps sp).1.iterations = j ∧
      (toughGo elapsed minC i fuel conf concl steps sp).1.confidence =
        calculateSophisticatedConfidence sp (elapsed j) j := by
  intro fuel
  induction fuel with
  | zero => intro i conf concl steps sp j h1 h2 _ _; omega
  | succ n ih =>
    intro i conf concl steps sp j h1 h2 hj hmin
    by_cases hc : minC ≤ calculateSophisticatedConfidence sp (elapsed i) i
    · have hji : j = i := by
        by_contra hne
        have hlt : i < j := by omega
        exact absurd hc (not_le.mpr (hmin i (le_refl i) hlt))
      subst hji
      simp only [toughGo]
      rw [if_pos hc]
      exact ⟨rfl, rfl⟩
    · have hne : ¬j = i := by
        intro he
        subst he
        exact hc hj
      simp only [toughGo]
      rw [if_neg hc]
      exact ih (i + 1) (calculateSophisticatedConfidence sp (elapsed i) i) concl
        ((steps ++ ["Iteration " ++ toString i ++ ": Analyzing " ++
          toString (generateSummary sp).totalEntries ++ " exploration entries"]) ++
          [toughThemedLine sp (generateSummary sp) (elapsed i) i]) sp j
        (by omega) (by omega) hj (by intro k hk1 hk2; exact hmin k (by omega) hk2)

theorem sophisticatedConfidence_bounds (sp : ExplorationScratchpad) (elapsedMs : ℚ) (i : ℕ)
    (hconf : ∀ e ∈ sp.entries, 0 ≤ e.confidence) (he : 0 ≤ elapsedMs) :
    0 ≤ calculateSophisticatedConfidence sp elapsedMs i ∧
    calculateSophisticatedConfidence sp elapsedMs i ≤ 1 := by
  simp only [calculateSophisticatedConfidence]
  constructor
  · apply le_min (by norm_num)
    have h1 : 0 ≤ (generateSummary sp).confidenceScore := confidenceScore_nonneg sp hconf
    have h2 : (0 : ℚ) ≤ min 1 (((generateSummary sp).totalEntries : ℚ) / 10) :=
      le_min (by norm_num) (by positivity)
    have h3 : (0 : ℚ) ≤ min (1/5) ((i : ℚ) * (1/20)) := le_min (by norm_num) (by positivity)
    have h4 : (0 : ℚ) ≤ min (1/10) (elapsedMs / 60000) :=
      le_min (by norm_num) (div_nonneg he (by norm_num))
    nlinarith [mul_nonneg h1 h2]
  · exact min_le_left _ _

/-- C1 (amended): `toughReasoning(maxIterations, minConfidence)` stops at the
first iteration `i` whose computed confidence
`min(1, confidenceScore·min(1, totalEntries/10) + min(0.2, i·0.05) + min(0.1, elapsedMs/60000))`
reaches `minConfidence`, in which case `1 ≤ iterations ≤ maxIterations`;
when no iteration reaches it, the returned `iterations` field is
`maxIterations + 1` (the JS loop variable after the final increment), not
`maxIterations`, while the returned confidence is the value computed at
iteration `maxIterations`; the confidence always lies in `[0, 1]` for
nonnegative entry confidences. -/
theorem toughReasoning_first_hit_and_bounds
    (sp : ExplorationScratchpad) (elapsed : ℕ → ℚ) (maxIterations : ℕ) (minConfidence : ℚ)
    (hmax : 1 ≤ maxIterations)
    (hconf : ∀ e ∈ sp.entries, 0 ≤ e.confidence)
    (helapsed : ∀ i, 0 ≤ elapsed i) :
    ∀ r, r = toughReasoning sp elapsed maxIterations minConfidence →
      (0 ≤ r.confidence ∧ r.confidence ≤ 1) ∧
      (1 ≤ r.iterations ∧ r.iterations ≤ maxIterations + 1) ∧
      (∀ j, 1 ≤ j → j < r.iterations →
        calculateSophisticatedConfidence sp (elapsed j) j < minConfidence) ∧
      (r.iterations ≤ maxIterations →
        minConfidence ≤ calculateSophisticatedConfidence sp (elapsed r.iterations) r.iterations ∧
        r.confidence = calculateSophisticatedConfidence sp (elapsed r.iterations) r.iterations) ∧
      (r.iterations = maxIterations + 1 →
        r.confidence = calculateSophisticatedConfidence sp (elapsed maxIterations) maxIterations) := by
  intro r hr
  subst hr
  simp only [toughReasoning, toughReasoningS]
  by_cases hex : ∃ j, 1 ≤ j ∧ j ≤ maxIterations ∧
      minConfidence ≤ calculateSophisticatedConfidence sp (elapsed j) j
  · obtain ⟨j₀, hj1, hj2, hj3, hfirst⟩ : ∃ j₀, 1 ≤ j₀ ∧ j₀ ≤ maxIterations ∧
        minConfidence ≤ calculateSophisticatedConfidence sp (elapsed j₀) j₀ ∧
        ∀ k, 1 ≤ k → k < j₀ →
          calculateSophisticatedConfidence sp (elapsed k) k < minConfidence := by
      classical
      refine ⟨Nat.find hex, (Nat.find_spec hex).1, (Nat.find_spec hex).2.1,
        (Nat.find_spec hex).2.2, ?_⟩
      intro k hk1 hk2
      by_contra hcontra
      exact Nat.find_min hex hk2 ⟨hk1, by
        have := (Nat.find_spec hex).2.1
        omega, not_lt.mp hcontra⟩
    have hgo := toughGo_hit elapsed minConfidence maxIterations 1 0
      "Insufficient data for conclusion" [] sp j₀ hj1 (by omega) hj3 hfirst
    rw [hgo.1, hgo.2]
    have hb := sophisticatedConfidence_bounds sp (elapsed j₀) j₀ hconf (helapsed j₀)
    refine ⟨⟨hb.1, hb.2⟩, ⟨hj1, by omega⟩, hfirst, fun _ => ⟨hj3, rfl⟩, fun habs => ?_⟩
    omega
  · push_neg at hex
    have hall : ∀ j, 1 ≤ j → j < 1 + maxIterations →
        calculateSophisticatedConfidence sp (elapsed j) j < minConfidence := by
      intro j h1 h2
      exact hex j h1 (by omega)
    have hgo := toughGo_exhaust elapsed minConfidence maxIterations 1 0
      "Insufficient data for conclusion" [] sp hall
    rw [hgo.1, hgo.2]
    rw [if_neg (by omega)]
    have harith : 1 + maxIterations - 1 = maxIterations := by omega
    rw [harith]
    have hb := sophisticatedConfidence_bounds sp (elapsed maxIterations) maxIterations hconf
      (helapsed maxIterations)
    refine ⟨⟨hb.1, hb.2⟩, ⟨by omega, by omega⟩, ?_, fun habs => ?_, fun _ => rfl⟩
    · intro j hj1 hj2
      exact hall j hj1 (by omega)
    · omega

/-- C1 witness: on a fresh store with `minConfidence = 0` and
`maxIterations = 3`, the first iteration already reaches the target, so
the bounds of the amended claim hold at a concrete input. -/
theorem toughReasoning_first_hit_and_bounds_witness :
    1 ≤ 3 ∧
    0 ≤ (toughReasoning emptyScratchpad zeroElapsed 3 0).confidence ∧
    (toughReasoning emptyScratchpad zeroElapsed 3 0).confidence ≤ 1 ∧
    1 ≤ (toughReasoning emptyScratchpad zeroElapsed 3 0).iterations ∧
    (toughReasoning emptyScratchpad zeroElapsed 3 0).iterations ≤ 3 + 1 := by
  have h := toughReasoning_first_hit_and_bounds emptyScratchpad zeroElapsed 3 0
    (by norm_num) (by intro e he; simp [emptyScratchpad] at he)
    (fun i => le_refl 0) (toughReasoning emptyScratchpad zeroElapsed 3 0) rfl
  exact ⟨by norm_num, h.1.1, h.1.2, h.2.1.1, h.2.1.2⟩

/-- C1 counterexample: `toughReasoning(1, 0.85)` on an empty store never
reaches the target, and the returned `iterations` field is 2, violating the
claimed bound `iterations ≤ maxIterations = 1`. -/
theorem toughReasoning_iterations_exceed_max_counterexample :
    (toughReasoning emptyScratchpad zeroElapsed 1 (17/20)).iterations = 2 ∧
    ¬((toughReasoning emptyScratchpad zeroElapsed 1 (17/20)).iterations ≤ 1) := by
  have hconf : calculateSophisticatedConfidence emptyScratchpad (zeroElapsed 1) 1 = 1/20 := by
    norm_num [calculateSophisticatedConfidence, generateSummary, emptyScratchpad, zeroElapsed,
      min_def]
  have hlt : ¬((17/20 : ℚ) ≤ calculateSophisticatedConfidence emptyScratchpad (zeroElapsed 1) 1) := by
    rw [hconf]
    norm_num
  have hgo := toughGo_exhaust zeroElapsed (17/20) 1 1 0
    "Insufficient data for conclusion" [] emptyScratchpad
    (by
      intro j hj1 hj2
      have hj : j = 1 := by omega
      subst hj
      exact not_le.mp hlt)
  constructor
  · show (toughGo zeroElapsed (17/20) 1 1 0 "Insufficient data for conclusion" []
      emptyScratchpad).1.iterations = 2
    rw [hgo.1]
  · show ¬((toughGo zeroElapsed (17/20) 1 1 0 "Insufficient data for conclusion" []
      emptyScratchpad).1.iterations ≤ 1)
    rw [hgo.1]
    omega

theorem generateFinalDecision_confidence (sp : ExplorationScratchpad) :
    (generateFinalDecision sp).confidence = (generateSummary sp).confidenceScore := by
  simp only [generateFinalDecision]
  split_ifs <;> rfl

/-- C10: `toughReasoning` never mutates the scratchpad — entry log, cache,
phase and elapsed-time origin are identical before and after — and hence the
confidence `makeFinalDecision` buckets after its forced `toughReasoning(5, 0.85)`
pass equals the score it read before that pass. -/
theorem toughReasoning_pure_frame :
    ∀ (sp : ExplorationScratchpad) (elapsed : ℕ → ℚ) (m : ℕ) (c : ℚ),
      (toughReasoningS sp elapsed m c).2.entries = sp.entries ∧
      (toughReasoningS sp elapsed m c).2.cache = sp.cache ∧
      (toughReasoningS sp elapsed m c).2.currentPhase = sp.currentPhase ∧
      (toughReasoningS sp elapsed m c).2.explorationStartTime = sp.explorationStartTime ∧
      (makeFinalDecision sp elapsed).1.confidence = (generateSummary sp).confidenceScore := by
  intro sp elapsed m c
  have hsnd : (toughReasoningS sp elapsed m c).2 = sp := by
    simp only [toughReasoningS]
    exact toughGo_snd elapsed c m 1 0 "Insufficient data for conclusion" [] sp
  have hsnd5 : (toughReasoningS sp elapsed 5 (17/20)).2 = sp := by
    simp only [toughReasoningS]
    exact toughGo_snd elapsed (17/20) 5 1 0 "Insufficient data for conclusion" [] sp
  refine ⟨by rw [hsnd], by rw [hsnd], by rw [hsnd], by rw [hsnd], ?_⟩
  simp only [makeFinalDecision]
  split_ifs with h
  · simp only [hsnd5]
    exact generateFinalDecision_confidence sp
  · exact generateFinalDecision_confidence sp

theorem generateFinalDecision_cases (sp : ExplorationScratchpad) :
    ((9/10 : ℚ) < (generateSummary sp).confidenceScore →
      (generateFinalDecision sp).decision = "Solução clara identificada com alta confiança" ∧
      (generateFinalDecision sp).actionPlan.length = 3) ∧
    ((7/10 : ℚ) < (generateSummary sp).confidenceScore →
      (generateSummary sp).confidenceScore ≤ 9/10 →
      (generateFinalDecision sp).decision = "Solução identificada com confiança moderada" ∧
      (generateFinalDecision sp).actionPlan.length = 3) ∧
    ((generateSummary sp).confidenceScore ≤ 7/10 →
      (generateFinalDecision sp).decision = "Mais análise necessária antes de decisão final") := by
  refine ⟨?_, ?_, ?_⟩
  · intro h
    simp only [generateFinalDecision, if_pos h]
    exact ⟨by trivial, by trivial⟩
  · intro h1 h2
    simp only [generateFinalDecision, if_neg (not_lt.mpr h2), if_pos h1]
    exact ⟨by trivial, by trivial⟩
  · intro h
    have h9 : ¬((9/10 : ℚ) < (generateSummary sp).confidenceScore) := by
      intro hx
      linarith
    have h7 : ¬((7/10 : ℚ) < (generateSummary sp).confidenceScore) := not_lt.mpr h
    simp only [generateFinalDecision, if_neg h9, if_neg h7]

/-- C6: `makeFinalDecision` forces one `toughReasoning(5, 0.85)` pass exactly
when the store's confidence score is below 0.8, then buckets the score:
above 0.9 the high-confidence decision with a 3-step plan, above 0.7 the
moderate decision, otherwise needs-more-analysis. -/
theorem makeFinalDecision_buckets (sp : ExplorationScratchpad) (elapsed : ℕ → ℚ) :
    ∀ out, out = makeFinalDecision sp elapsed →
      out.1.confidence = (generateSummary sp).confidenceScore ∧
      ((generateSummary sp).confidenceScore < 4/5 →
        out.2 = [⟨.THINK, "tough_reasoning", (toughReasoning sp elapsed 5 (17/20)).confidence⟩,
          ⟨.EXECUTE, "final_decision", out.1.confidence⟩]) ∧
      ((4/5 : ℚ) ≤ (generateSummary sp).confidenceScore →
        out.2 = [⟨.EXECUTE, "final_decision", out.1.confidence⟩]) ∧
      ((9/10 : ℚ) < (generateSummary sp).confidenceScore →
        out.1.decision = "Solução clara identificada com alta confiança" ∧
        out.1.actionPlan.length = 3) ∧
      ((7/10 : ℚ) < (generateSummary sp).confidenceScore →
        (generateSummary sp).confidenceScore ≤ 9/10 →
        out.1.decision = "Solução identificada com confiança moderada" ∧
        out.1.actionPlan.length = 3) ∧
      ((generateSummary sp).confidenceScore ≤ 7/10 →
        out.1.decision = "Mais análise necessária antes de decisão final") := by
  intro out hout
  subst hout
  have hsnd5 : (toughReasoningS sp elapsed 5 (17/20)).2 = sp := by
    simp only [toughReasoningS]
    exact toughGo_snd elapsed (17/20) 5 1 0 "Insufficient data for conclusion" [] sp
  have hgfd := generateFinalDecision_cases sp
  by_cases h : (generateSummary sp).confidenceScore < 4/5
  · simp only [makeFinalDecision, if_pos h, hsnd5, Option.toList_some, List.singleton_append,
      toughReasoning]
    refine ⟨generateFinalDecision_confidence sp, fun _ => by trivial,
      fun h2 => absurd h (not_lt.mpr h2), hgfd.1, hgfd.2.1, hgfd.2.2⟩
  · simp only [makeFinalDecision, if_neg h, Option.toList_none, List.nil_append]
    refine ⟨generateFinalDecision_confidence sp, fun h2 => absurd h2 h,
      fun _ => by trivial, hgfd.1, hgfd.2.1, hgfd.2.2⟩

/-- C6 witness (Scenario E): with confidence score 0.95 the decision text is
the high-confidence one and the action plan has exactly 3 steps. -/
theorem makeFinalDecision_buckets_witness :
    (9/10 : ℚ) < (generateSummary spHigh95).confidenceScore ∧
    (makeFinalDecision spHigh95 zeroElapsed).1.decision =
      "Solução clara identificada com alta confiança" ∧
    (makeFinalDecision spHigh95 zeroElapsed).1.actionPlan.length = 3 := by
  have hcs : (generateSummary spHigh95).confidenceScore = 19/20 := by
    norm_num [spHigh95, buildScratchpad, buildAux, addEntry, mkEntry, emptyScratchpad,
      sampleInput, generateSummary, List.insertionSort, List.orderedInsert, tsDesc]
  have h9 : (9/10 : ℚ) < (generateSummary spHigh95).confidenceScore := by
    rw [hcs]
    norm_num
  have h := makeFinalDecision_buckets spHigh95 zeroElapsed
    (makeFinalDecision spHigh95 zeroElapsed) rfl
  exact ⟨h9, (h.2.2.2.1 h9).1, (h.2.2.2.1 h9).2⟩

theorem truncateResult_length (s : String) :
    (truncateResult s).length ≤ max s.length 503 := by
  simp only [truncateResult]
  split_ifs with h
  · have hdots : ("..." : String).length = 3 := rfl
    have hsub : (jsSubstring0 s 500).length = min 500 s.length := by
      simp [jsSubstring0]
    have hlen : (jsSubstring0 s 500 ++ "...").length = min 500 s.length + 3 := by
      rw [String.length_append, hsub, hdots]
    rw [hlen]
    have : min 500 s.length ≤ 500 := min_le_left _ _
    have h503 : min 500 s.length + 3 ≤ 503 := by omega
    exact le_trans h503 (le_max_right _ _)
  · exact le_max_left _ _

/-- C9 (amended): on every cache hit, `check_cache` renders the cached entry's
metadata (confidence, timestamp, tags, relevance) together with a payload
preview truncated via `truncateResult` — whose cutoff is 500 characters plus
an ellipsis (at most 503 characters), not 100. -/
theorem checkCacheStatus_hit_render (sp : ExplorationScratchpad) (toolName query : String)
    (filePath : Option String) (e : ExplorationEntry)
    (h : getCachedResult sp toolName query filePath = some e) :
    (checkCacheStatus sp toolName query filePath).hit = true ∧
    (checkCacheStatus sp toolName query filePath).confidence = some e.confidence ∧
    (checkCacheStatus sp toolName query filePath).timestamp = some e.timestamp ∧
    (checkCacheStatus sp toolName query filePath).tags = some e.tags ∧
    (checkCacheStatus sp toolName query filePath).relevance = some e.relevance ∧
    (checkCacheStatus sp toolName query filePath).preview = some (truncateResult e.result) ∧
    (truncateResult e.result).length ≤ max e.result.length 503 := by
  have hhit : hasExplored sp toolName query filePath = true := by
    simp [hasExplored, h]
  simp [checkCacheStatus, h, hhit, truncateResult_length e.result]

/-- C9 witness: a cache hit whose payload has 101 characters renders the full
metadata and the `truncateResult` preview, within the amended length bound. -/
theorem checkCacheStatus_hit_render_witness :
    getCachedResult spLong FILE_READ "f" none = some entryLong ∧
    (checkCacheStatus spLong FILE_READ "f" none).hit = true ∧
    (checkCacheStatus spLong FILE_READ "f" none).confidence = some entryLong.confidence ∧
    (checkCacheStatus spLong FILE_READ "f" none).preview =
      some (truncateResult entryLong.result) ∧
    (truncateResult entryLong.result).length ≤ max entryLong.result.length 503 := by
  have h : getCachedResult spLong FILE_READ "f" none = some entryLong := by
    simp [spLong, buildScratchpad, buildAux, addEntry, mkEntry, emptyScratchpad, sampleInput,
      getCachedResult, List.find?, entryLong]
  have hr := checkCacheStatus_hit_render spLong FILE_READ "f" none entryLong h
  exact ⟨h, hr.1, hr.2.1, hr.2.2.2.2.2.1, hr.2.2.2.2.2.2⟩

/-- C9 counterexample: the cached 101-character payload is rendered whole —
the preview is not truncated to at most 100 characters, because
`ReasoningToolHandler.truncateResult` cuts at 500, not 100. -/
theorem checkCacheStatus_preview_over_100_counterexample :
    (checkCacheStatus spLong FILE_READ "f" none).preview = some longResult ∧
    100 < longResult.length := by
  have hlen : longResult.length = 101 := by
    decide
  have h : getCachedResult spLong FILE_READ "f" none = some entryLong := by
    simp [spLong, buildScratchpad, buildAux, addEntry, mkEntry, emptyScratchpad, sampleInput,
      getCachedResult, List.find?, entryLong]
  have hhit : hasExplored spLong FILE_READ "f" none = true := by
    simp [hasExplored, h]
  constructor
  · have htr : truncateResult entryLong.result = longResult := by
      simp only [truncateResult, entryLong]
      rw [if_neg (by rw [hlen]; norm_num)]
    simp [checkCacheStatus, h, hhit, htr]
  · rw [hlen]
    norm_num

theorem analyze_canDecide (summary : ExplorationSummary) (phase : Phase) (iteration : ℕ)
    (h1 : ¬(summary.totalEntries < 3 ∧ phase = Phase.EXPLORE))
    (h2 : (4/5 : ℚ) ≤ summary.confidenceScore) :
    analyzeCurrentSituation summary phase iteration =
      { needsMoreExploration := false, needsDeepReasoning := false, canMakeDecision := true,
        explorationStrategy := [], reasoningFocus := "" } := by
  have hB : ¬(summary.confidenceScore < 7/10 ∧ phase = Phase.THINK) := by
    rintro ⟨hb, -⟩
    linarith
  simp only [analyzeCurrentSituation, if_neg h1, if_neg hB, if_pos (Or.inl h2)]

/-- C7 (amended): the situation classification is first-match-wins in the
order (i) `totalEntries < 3 ∧ phase = EXPLORE` → needs-exploration (broad
auto-explore), (ii) `confidenceScore < 0.7 ∧ phase = THINK` →
needs-deep-reasoning, (iii) `confidenceScore ≥ 0.8 ∨ iteration ≥ 5` →
can-decide, (iv) otherwise needs-exploration (targeted search); and
`executeThinkingLoop(1)` on a store with `confidenceScore ≥ 0.8` decides via
the can-decide branch within exactly 1 iteration provided branch (i) does not
preempt it, i.e. unless `totalEntries < 3` and the phase is still EXPLORE. -/
theorem executeThinkingLoop_can_decide :
    (∀ (sp : ExplorationScratchpad) (elapsed : ℕ → ℚ),
      (4/5 : ℚ) ≤ (generateSummary sp).confidenceScore →
      ¬((generateSummary sp).totalEntries < 3 ∧ sp.currentPhase = Phase.EXPLORE) →
      ∀ out, out = executeThinkingLoop sp elapsed 1 (initializeIntelligentThinking sp) →
        out.1.branchTrace = [BranchTaken.decideNow] ∧
        out.1.currentIteration = 1 ∧
        out.1.decision = some out.2 ∧
        out.2 = (makeFinalDecision sp elapsed).1) ∧
    (∀ (summary : ExplorationSummary) (phase : Phase) (iteration : ℕ),
      ((analyzeCurrentSituation summary phase iteration).needsMoreExploration = true ↔
        ((summary.totalEntries < 3 ∧ phase = Phase.EXPLORE) ∨
          (¬(summary.totalEntries < 3 ∧ phase = Phase.EXPLORE) ∧
            ¬(summary.confidenceScore < 7/10 ∧ phase = Phase.THINK) ∧
            ¬((4/5 : ℚ) ≤ summary.confidenceScore ∨ 5 ≤ iteration)))) ∧
      ((analyzeCurrentSituation summary phase iteration).needsDeepReasoning = true ↔
        (¬(summary.totalEntries < 3 ∧ phase = Phase.EXPLORE) ∧
          summary.confidenceScore < 7/10 ∧ phase = Phase.THINK)) ∧
      ((analyzeCurrentSituation summary phase iteration).canMakeDecision = true ↔
        (¬(summary.totalEntries < 3 ∧ phase = Phase.EXPLORE) ∧
          ¬(summary.confidenceScore < 7/10 ∧ phase = Phase.THINK) ∧
          ((4/5 : ℚ) ≤ summary.confidenceScore ∨ 5 ≤ iteration))) ∧
      ((summary.totalEntries < 3 ∧ phase = Phase.EXPLORE) →
        (analyzeCurrentSituation summary phase iteration).explorationStrategy =
          ["auto_explore", "read_key_files", "search_patterns"]) ∧
      ((¬(summary.totalEntries < 3 ∧ phase = Phase.EXPLORE) ∧
          ¬(summary.confidenceScore < 7/10 ∧ phase = Phase.THINK) ∧
          ¬((4/5 : ℚ) ≤ summary.confidenceScore ∨ 5 ≤ iteration)) →
        (analyzeCurrentSituation summary phase iteration).explorationStrategy =
          ["targeted_search", "deep_file_analysis"])) := by
  constructor
  · intro sp elapsed hcs hnot out hout
    subst hout
    have hana := analyze_canDecide (generateSummary sp) sp.currentPhase 1 hnot hcs
    simp only [executeThinkingLoop, loopRun, initializeIntelligentThinking]
    rw [if_pos (by constructor <;> simp)]
    simp only [loopStep, hana]
    simp

  · intro summary phase iteration
    simp only [analyzeCurrentSituation]
    split_ifs with hA hB hC <;> simp_all

/-- C7 witness: a store with 3 entries at confidence 0.9 (phase EXPLORE) is
decided in one iteration via the can-decide branch. -/
theorem executeThinkingLoop_can_decide_witness :
    (4/5 : ℚ) ≤ (generateSummary spThreeHigh).confidenceScore ∧
    ¬((generateSummary spThreeHigh).totalEntries < 3 ∧
      spThreeHigh.currentPhase = Phase.EXPLORE) ∧
    (executeThinkingLoop spThreeHigh zeroElapsed 1
      (initializeIntelligentThinking spThreeHigh)).1.branchTrace = [BranchTaken.decideNow] ∧
    (executeThinkingLoop spThreeHigh zeroElapsed 1
      (initializeIntelligentThinking spThreeHigh)).1.currentIteration = 1 := by
  have hcs : (generateSummary spThreeHigh).confidenceScore = 9/10 := by
    norm_num [spThreeHigh, buildScratchpad, buildAux, addEntry, mkEntry, emptyScratchpad,
      sampleInput, generateSummary, List.insertionSort, List.orderedInsert, tsDesc]
  have htot : (generateSummary spThreeHigh).totalEntries = 3 := by
    norm_num [spThreeHigh, buildScratchpad, buildAux, addEntry, mkEntry, emptyScratchpad,
      sampleInput, generateSummary, List.insertionSort, List.orderedInsert, tsDesc]
  have h1 : (4/5 : ℚ) ≤ (generateSummary spThreeHigh).confidenceScore := by
    rw [hcs]
    norm_num
  have h2 : ¬((generateSummary spThreeHigh).totalEntries < 3 ∧
      spThreeHigh.currentPhase = Phase.EXPLORE) := by
    rintro ⟨hlt, -⟩
    rw [htot] at hlt
    omega
  have h := executeThinkingLoop_can_decide.1 spThreeHigh zeroElapsed h1 h2
    (executeThinkingLoop spThreeHigh zeroElapsed 1
      (initializeIntelligentThinking spThreeHigh)) rfl
  exact ⟨h1, h2, h.1, h.2.1⟩

/-- C7 counterexample: a store with one entry at confidence 0.9 (so
`confidenceScore ≥ 0.8`) still in EXPLORE with fewer than 3 entries is routed
to the needs-exploration branch, not can-decide, on iteration 1 of
`executeThinkingLoop(1)`; the decision is only forced after the loop. -/
theorem executeThinkingLoop_explore_preempts_counterexample :
    (4/5 : ℚ) ≤ (generateSummary spOneHigh).confidenceScore ∧
    (executeThinkingLoop spOneHigh zeroElapsed 1
      (initializeIntelligentThinking spOneHigh)).1.branchTrace =
      [BranchTaken.exploreMore, BranchTaken.forcedDecision] := by
  have hcs : (generateSummary spOneHigh).confidenceScore = 9/10 := by
    norm_num [spOneHigh, buildScratchpad, buildAux, addEntry, mkEntry, emptyScratchpad,
      sampleInput, generateSummary, List.insertionSort, List.orderedInsert, tsDesc]
  have htot : (generateSummary spOneHigh).totalEntries = 1 := by
    norm_num [spOneHigh, buildScratchpad, buildAux, addEntry, mkEntry, emptyScratchpad,
      sampleInput, generateSummary, List.insertionSort, List.orderedInsert, tsDesc]
  have hphase : spOneHigh.currentPhase = Phase.EXPLORE := by
    simp [spOneHigh, buildScratchpad, buildAux, addEntry, emptyScratchpad]
  have hana : analyzeCurrentSituation (generateSummary spOneHigh) spOneHigh.currentPhase 1 =
      { needsMoreExploration := true, needsDeepReasoning := false, canMakeDecision := false,
        explorationStrategy := ["auto_explore", "read_key_files", "search_patterns"],
        reasoningFocus := "" } := by
    simp only [analyzeCurrentSituation]
    rw [if_pos ⟨by rw [htot]; omega, hphase⟩]
  constructor
  · rw [hcs]
    norm_num
  · simp only [executeThinkingLoop, loopRun, initializeIntelligentThinking]
    rw [if_pos (by constructor <;> simp)]
    simp only [loopStep, hana]
    simp

theorem thoughtConsistency_bounds (confidences : List ℚ) :
    0 ≤ calculateThoughtConsistency confidences ∧
    calculateThoughtConsistency confidences ≤ 1 := by
  simp only [calculateThoughtConsistency]
  split_ifs with h
  · norm_num
  · constructor
    · exact le_max_left 0 _
    · exact max_le (by norm_num) (sub_le_self 1 (Real.sqrt_nonneg _))

theorem analyze_flags_total (summary : ExplorationSummary) (phase : Phase) (iteration : ℕ) :
    (analyzeCurrentSituation summary phase iteration).needsMoreExploration = true ∨
    (analyzeCurrentSituation summary phase iteration).needsDeepReasoning = true ∨
    (analyzeCurrentSituation summary phase iteration).canMakeDecision = true := by
  simp only [analyzeCurrentSituation]
  split_ifs <;> simp

theorem loopStep_convergence (sp : ExplorationScratchpad) (elapsed : ℕ → ℚ)
    (s : IntelligentState) :
    (loopStep sp elapsed s).convergenceLevel = s.convergenceLevel := by
  cases h1 : (analyzeCurrentSituation (generateSummary sp) sp.currentPhase
      (s.currentIteration + 1)).needsMoreExploration
  · cases h2 : (analyzeCurrentSituation (generateSummary sp) sp.currentPhase
        (s.currentIteration + 1)).needsDeepReasoning
    · cases h3 : (analyzeCurrentSituation (generateSummary sp) sp.currentPhase
          (s.currentIteration + 1)).canMakeDecision
      · exfalso
        have h := analyze_flags_total (generateSummary sp) sp.currentPhase
          (s.currentIteration + 1)
        simp [h1, h2, h3] at h
      · simp [loopStep, h1, h2, h3]
    · simp [loopStep, h1, h2]
  · simp [loopStep, h1]

theorem loopRun_convergence (sp : ExplorationScratchpad) (elapsed : ℕ → ℚ)
    (maxIterations : ℕ) :
    ∀ (fuel : ℕ) (s : IntelligentState),
      (loopRun sp elapsed maxIterations fuel s).convergenceLevel = s.convergenceLevel := by
  intro fuel
  induction fuel with
  | zero => intro s; rfl
  | succ n ih =>
    intro s
    simp only [loopRun]
    split
    · rw [ih, loopStep_convergence]
    · rfl

/-- C8 (corrected): the convergence recompute is unreachable.
`analyzeCurrentSituation` sets one of its three branch flags in every case
(the otherwise-branch also reports needs-exploration), so every loop iteration
continues or returns before the reflect/recompute step: `loopStep` never
changes the convergence level, and a run started from
`initializeIntelligentThinking` keeps it at its initial 0 — trivially within
`[0, 1]` — after every iteration.  The recompute formula itself (the dead
`updateConvergenceLevel`) equals
`min(1, storeConfidence + min(0.3, iteration·0.05) + 0.2·consistency)` with
`consistency = max(0, 1 − sqrt(variance of thought confidences))` (0.5 for
fewer than 2 thoughts), and lies in `[0, 1]` for nonnegative store
confidence. -/
theorem convergence_recompute_unreachable :
    (∀ (summary : ExplorationSummary) (phase : Phase) (iteration : ℕ),
      (analyzeCurrentSituation summary phase iteration).needsMoreExploration = true ∨
      (analyzeCurrentSituation summary phase iteration).needsDeepReasoning = true ∨
      (analyzeCurrentSituation summary phase iteration).canMakeDecision = true) ∧
    (∀ (sp : ExplorationScratchpad) (elapsed : ℕ → ℚ) (s : IntelligentState),
      (loopStep sp elapsed s).convergenceLevel = s.convergenceLevel) ∧
    (∀ (sp : ExplorationScratchpad) (elapsed : ℕ → ℚ) (maxIterations : ℕ),
      (executeThinkingLoop sp elapsed maxIterations
        (initializeIntelligentThinking sp)).1.convergenceLevel = 0 ∧
      0 ≤ (executeThinkingLoop sp elapsed maxIterations
        (initializeIntelligentThinking sp)).1.convergenceLevel ∧
      (executeThinkingLoop sp elapsed maxIterations
        (initializeIntelligentThinking sp)).1.convergenceLevel ≤ 1) ∧
    (∀ (dataConfidence : ℚ) (iterations : ℕ) (confidences : List ℚ),
      updateConvergenceLevel dataConfidence iterations confidences =
        min 1 ((dataConfidence : ℝ) + min 0.3 ((iterations : ℝ) * 0.05) +
          0.2 * calculateThoughtConsistency confidences) ∧
      (confidences.length < 2 → calculateThoughtConsistency confidences = 0.5) ∧
      (2 ≤ confidences.length → calculateThoughtConsistency confidences =
        max 0 (1 - Real.sqrt
          (((confidences.map
            (fun conf => (conf - confidences.sum / (confidences.length : ℚ)) ^ 2)).sum /
              (confidences.length : ℚ) : ℚ)))) ∧
      (0 ≤ dataConfidence →
        0 ≤ updateConvergenceLevel dataConfidence iterations confidences ∧
        updateConvergenceLevel dataConfidence iterations confidences ≤ 1)) := by
  refine ⟨analyze_flags_total, loopStep_convergence, ?_, ?_⟩
  · intro sp elapsed maxIterations
    have hrun := loopRun_convergence sp elapsed maxIterations maxIterations
      (initializeIntelligentThinking sp)
    have hinit : (initializeIntelligentThinking sp).convergenceLevel = 0 := rfl
    have hzero : (executeThinkingLoop sp elapsed maxIterations
        (initializeIntelligentThinking sp)).1.convergenceLevel = 0 := by
      simp only [executeThinkingLoop]
      cases hdec : (loopRun sp elapsed maxIterations maxIterations
          (initializeIntelligentThinking sp)).decision
      · simp only [hdec]
        rw [hrun]
        exact hinit
      · simp only [hdec]
        rw [hrun]
        exact hinit
    exact ⟨hzero, by rw [hzero], by rw [hzero]; norm_num⟩
  · intro dataConfidence iterations confidences
    refine ⟨?_, ?_, ?_, ?_⟩
    · simp only [updateConvergenceLevel]
      congr 1
      ring
    · intro h
      simp only [calculateThoughtConsistency, if_pos h]
    · intro h
      simp only [calculateThoughtConsistency, if_neg (not_lt.mpr h)]
    · intro h
      constructor
      · apply le_min (by norm_num)
        have h1 : (0 : ℝ) ≤ (dataConfidence : ℚ) := by exact_mod_cast h
        have h2 : (0 : ℝ) ≤ min 0.3 ((iterations : ℝ) * 0.05) :=
          le_min (by norm_num) (by positivity)
        have h3 := (thoughtConsistency_bounds confidences).1
        nlinarith
      · simp only [updateConvergenceLevel]
        exact min_le_left _ _

/-- C8 witness: on an empty store with one loop iteration the convergence
level of the finished run is 0 and within `[0, 1]`, and the dead recompute
formula at store confidence 0 with no thoughts also lies in `[0, 1]`. -/
theorem convergence_recompute_unreachable_witness :
    (executeThinkingLoop emptyScratchpad zeroElapsed 1
      (initializeIntelligentThinking emptyScratchpad)).1.convergenceLevel = 0 ∧
    (0 : ℚ) ≤ 0 ∧
    0 ≤ updateConvergenceLevel 0 0 [] ∧ updateConvergenceLevel 0 0 [] ≤ 1 := by
  have h := convergence_recompute_unreachable
  have hb := (h.2.2.2 0 0 []).2.2.2 (le_refl 0)
  exact ⟨(h.2.2.1 emptyScratchpad zeroElapsed 1).1, le_refl 0, hb.1, hb.2⟩

/-- C8 counterexample: the convergence level is never recomputed — after loop
iteration 1 on an empty store it is still 0, while the claimed formula
evaluates to at least 0.05 at the post-iteration state; every iteration takes
the exploration, deep-reasoning or can-decide branch before the recompute. -/
theorem convergence_never_recomputed_counterexample :
    (loopStep emptyScratchpad zeroElapsed
      (initializeIntelligentThinking emptyScratchpad)).convergenceLevel = 0 ∧
    updateConvergenceLevel (generateSummary emptyScratchpad).confidenceScore 1
      (thoughtConfidences (loopStep emptyScratchpad zeroElapsed
        (initializeIntelligentThinking emptyScratchpad)).thoughts) ≠ 0 := by
  have hana : analyzeCurrentSituation (generateSummary emptyScratchpad)
      emptyScratchpad.currentPhase 1 =
      { needsMoreExploration := true, needsDeepReasoning := false, canMakeDecision := false,
        explorationStrategy := ["auto_explore", "read_key_files", "search_patterns"],
        reasoningFocus := "" } := by
    simp only [analyzeCurrentSituation]
    rw [if_pos ⟨by simp [generateSummary, emptyScratchpad], rfl⟩]
  have hcs0 : (generateSummary emptyScratchpad).confidenceScore = 0 := by
    simp [generateSummary, emptyScratchpad]
  have hth : thoughtConfidences (loopStep emptyScratchpad zeroElapsed
      (initializeIntelligentThinking emptyScratchpad)).thoughts =
      [1/2, 0, 0, 7/10, 4/5, 4/5, 4/5, 3/4] := by
    simp [loopStep, hana, initializeIntelligentThinking, explorationThoughts,
      thoughtConfidences, hcs0]
  constructor
  · simp [loopStep, hana, initializeIntelligentThinking]
  · rw [hcs0, hth]
    have hb := thoughtConsistency_bounds [1/2, 0, 0, 7/10, 4/5, 4/5, 4/5, 3/4]
    simp only [updateConvergenceLevel]
    apply ne_of_gt
    apply lt_min (by norm_num)
    have hmin : min (0.3 : ℝ) ((1 : ℕ) * 0.05) = 0.05 := by
      norm_num
    rw [hmin]
    have hc := hb.1
    push_cast
    nlinarith

end ClineThink
